import Mathlib

/-!
Verification development for the STUN-based NAT inspection scripts:
the binding-message codec (`create_binding_request`, `parse_binding_response`),
the NAT mapping classifier (`check_nat_mapping_behavior`), and the
port-allocation analyzer (`check_port_allocation` statistics).

Byte strings are modelled as `List Nat` (each entry one byte).  Big-endian
field reads mirror Python's `struct.unpack`; a Python exception raised during
attribute parsing (`struct.error` from a short buffer slice, or `OSError`
from `socket.inet_ntoa` on a short slice) is modelled by the explicit
outcome `ParseOutcome.raised`.  IPv4 addresses are modelled by their 32-bit
value; `socket.inet_ntoa` is the bijection to dotted-quad form, exposed here
as `ipQuad`.
-/

namespace NatInspect

/-- STUN message type constant from the source. -/
def BINDING_REQUEST : Nat := 0x0001

/-- STUN message type constant from the source. -/
def BINDING_RESPONSE : Nat := 0x0101

/-- STUN attribute type constant from the source. -/
def MAPPED_ADDRESS : Nat := 0x0001

/-- STUN attribute type constant from the source. -/
def XOR_MAPPED_ADDRESS : Nat := 0x0020

/-- STUN attribute type constant from the source. -/
def SOFTWARE : Nat := 0x8022

/-- STUN magic cookie constant from the source. -/
def MAGIC_COOKIE : Nat := 0x2112A442

/-- Big-endian 16-bit value of two bytes (Python `struct.unpack('>H', ..)`). -/
def be16 (a b : Nat) : Nat := a * 256 + b

/-- Big-endian 32-bit value of four bytes (Python `struct.unpack('>I', ..)`). -/
def be32 (a b c d : Nat) : Nat := ((a * 256 + b) * 256 + c) * 256 + d

/-- The two big-endian bytes of a 16-bit value (Python `struct.pack('>H', ..)`). -/
def be16bytes (n : Nat) : List Nat := [n / 256 % 256, n % 256]

/-- The four big-endian bytes of a 32-bit value (Python `struct.pack('>I', ..)`). -/
def be32bytes (n : Nat) : List Nat :=
  [n / 16777216 % 256, n / 65536 % 256, n / 256 % 256, n % 256]

/-- Dotted-quad view of a 32-bit IPv4 value (`socket.inet_ntoa`). -/
def ipQuad (n : Nat) : Nat × Nat × Nat × Nat :=
  (n / 16777216 % 256, n / 65536 % 256, n / 256 % 256, n % 256)

/-- 32-bit IPv4 value of a dotted quad. -/
def ipv4 (a b c d : Nat) : Nat := be32 a b c d

/-- Outcome of `StunClient.parse_binding_response`.  The Python function
returns a pair of optionals; the three failure constructors record which
early-return branch fired (distinguished in the source by its log message),
and `raised` records a Python exception escaping the function. -/
inductive ParseOutcome
  | tooShort
  | unexpectedType
  | badCookie
  | raised
  | ok (ip : Option Nat) (port : Option Nat)
  deriving DecidableEq

/-- Padding to the next 4-byte boundary after an attribute value
(`if attr_length % 4: pos += 4 - (attr_length % 4)`). -/
def pad4 (n : Nat) : Nat := if n % 4 ≠ 0 then 4 - n % 4 else 0

/-- The attribute-scanning `while` loop of `parse_binding_response`
(lines 114-151 of `nat_mapping_behavior_checker.py`, identically lines
110-147 of `nat_port_allocation_checker.py`).  `ip`/`port` are the two
mutable result slots `external_ip`/`external_port`.  A recognised address
attribute whose value bytes are cut off by the end of the buffer makes the
Python code raise (`struct.error` from `struct.unpack` on a short slice,
`OSError` from `inet_ntoa`), modelled by `.raised`. -/
def parseAttrs (data : List Nat) (pos : Nat) (ip port : Option Nat) : ParseOutcome :=
  if h : pos < data.length then
    if data.length < pos + 4 then ParseOutcome.ok ip port
    else if be16 (data.getD pos 0) (data.getD (pos + 1) 0) = MAPPED_ADDRESS then
      if 8 ≤ be16 (data.getD (pos + 2) 0) (data.getD (pos + 3) 0) then
        if data.length < pos + 4 + 4 then ParseOutcome.raised
        else if data.getD (pos + 4 + 1) 0 = 1 then
          if data.length < pos + 4 + 8 then ParseOutcome.raised
          else
            parseAttrs data
              (pos + 4 + be16 (data.getD (pos + 2) 0) (data.getD (pos + 3) 0)
                + pad4 (be16 (data.getD (pos + 2) 0) (data.getD (pos + 3) 0)))
              (some (be32 (data.getD (pos + 4 + 4) 0) (data.getD (pos + 4 + 5) 0)
                (data.getD (pos + 4 + 6) 0) (data.getD (pos + 4 + 7) 0)))
              (some (be16 (data.getD (pos + 4 + 2) 0) (data.getD (pos + 4 + 3) 0)))
        else
          parseAttrs data
            (pos + 4 + be16 (data.getD (pos + 2) 0) (data.getD (pos + 3) 0)
              + pad4 (be16 (data.getD (pos + 2) 0) (data.getD (pos + 3) 0))) ip port
      else
        parseAttrs data
          (pos + 4 + be16 (data.getD (pos + 2) 0) (data.getD (pos + 3) 0)
            + pad4 (be16 (data.getD (pos + 2) 0) (data.getD (pos + 3) 0))) ip port
    else if be16 (data.getD pos 0) (data.getD (pos + 1) 0) = XOR_MAPPED_ADDRESS then
      if 8 ≤ be16 (data.getD (pos + 2) 0) (data.getD (pos + 3) 0) then
        if data.length < pos + 4 + 4 then ParseOutcome.raised
        else if data.getD (pos + 4 + 1) 0 = 1 then
          if data.length < pos + 4 + 8 then ParseOutcome.raised
          else
            parseAttrs data
              (pos + 4 + be16 (data.getD (pos + 2) 0) (data.getD (pos + 3) 0)
                + pad4 (be16 (data.getD (pos + 2) 0) (data.getD (pos + 3) 0)))
              (some (be32 (data.getD (pos + 4 + 4) 0) (data.getD (pos + 4 + 5) 0)
                (data.getD (pos + 4 + 6) 0) (data.getD (pos + 4 + 7) 0) ^^^ MAGIC_COOKIE))
              (some (be16 (data.getD (pos + 4 + 2) 0) (data.getD (pos + 4 + 3) 0)
                ^^^ MAGIC_COOKIE >>> 16))
        else
          parseAttrs data
            (pos + 4 + be16 (data.getD (pos + 2) 0) (data.getD (pos + 3) 0)
              + pad4 (be16 (data.getD (pos + 2) 0) (data.getD (pos + 3) 0))) ip port
      else
        parseAttrs data
          (pos + 4 + be16 (data.getD (pos + 2) 0) (data.getD (pos + 3) 0)
            + pad4 (be16 (data.getD (pos + 2) 0) (data.getD (pos + 3) 0))) ip port
    else
      parseAttrs data
        (pos + 4 + be16 (data.getD (pos + 2) 0) (data.getD (pos + 3) 0)
          + pad4 (be16 (data.getD (pos + 2) 0) (data.getD (pos + 3) 0))) ip port
  else ParseOutcome.ok ip port
termination_by data.length - pos
decreasing_by all_goals omega

/-- `StunClient.parse_binding_response`.  The header unpack reads
message type (bytes 0-1), message length (bytes 2-3, unused by the source),
and magic cookie (bytes 4-7); note the source checks the message type
before the magic cookie. -/
def parse_binding_response (data : List Nat) : ParseOutcome :=
  if data.length < 20 then ParseOutcome.tooShort
  else if be16 (data.getD 0 0) (data.getD 1 0) ≠ BINDING_RESPONSE then
    ParseOutcome.unexpectedType
  else if be32 (data.getD 4 0) (data.getD 5 0) (data.getD 6 0) (data.getD 7 0)
      ≠ MAGIC_COOKIE then ParseOutcome.badCookie
  else parseAttrs data 20 none none

/-- Modelled from the spec: the `StunMessage` invariant "each attribute's
declared length never exceeds the remaining buffer", checked along the
same attribute walk the decoder performs.  Used to state when the decoder
cannot raise. -/
def attrsFit (data : List Nat) (pos : Nat) : Bool :=
  if h : pos < data.length then
    if data.length < pos + 4 then true
    else
      decide (pos + 4 + be16 (data.getD (pos + 2) 0) (data.getD (pos + 3) 0) ≤ data.length)
        && attrsFit data
          (pos + 4 + be16 (data.getD (pos + 2) 0) (data.getD (pos + 3) 0)
            + pad4 (be16 (data.getD (pos + 2) 0) (data.getD (pos + 3) 0)))
  else true
termination_by data.length - pos
decreasing_by all_goals omega

/-- 20-byte STUN header: message type, message length field, magic cookie,
12-byte transaction id. -/
def stunHeader (messageType messageLength : Nat) (tid : List Nat) : List Nat :=
  be16bytes messageType ++ be16bytes messageLength ++ be32bytes MAGIC_COOKIE ++ tid

/-- A MAPPED_ADDRESS attribute block (declared length 8, family 0x01,
raw port, raw IPv4 address). -/
def mappedAttr (port addr : Nat) : List Nat :=
  be16bytes MAPPED_ADDRESS ++ be16bytes 8 ++ [0, 1] ++ be16bytes port ++ be32bytes addr

/-- An XOR_MAPPED_ADDRESS attribute block (declared length 8, family 0x01,
raw XORed port field, raw XORed address field). -/
def xorMappedAttr (xport xaddr : Nat) : List Nat :=
  be16bytes XOR_MAPPED_ADDRESS ++ be16bytes 8 ++ [0, 1] ++ be16bytes xport ++ be32bytes xaddr

/-- Python `struct.pack('12s', b)`: truncate to 12 bytes, zero-pad to 12. -/
def pack12s (tid : List Nat) : List Nat :=
  tid.take 12 ++ List.replicate (12 - tid.length) 0

/-- The bytes of `b'Python STUN Client'` (18 ASCII bytes). -/
def software : List Nat :=
  [80, 121, 116, 104, 111, 110, 32, 83, 84, 85, 78, 32, 67, 108, 105, 101, 110, 116]

/-- `software_padded`: the SOFTWARE value right-padded with zero bytes to the
next 4-byte boundary. -/
def software_padded : List Nat :=
  software ++ (if software.length % 4 ≠ 0 then List.replicate (4 - software.length % 4) 0 else [])

/-- `software_attr`: SOFTWARE attribute TLV; the declared length is the
unpadded string length. -/
def software_attr : List Nat :=
  be16bytes SOFTWARE ++ be16bytes software.length ++ software_padded

/-- `StunClient.create_binding_request`, parametrised by the random 12-byte
transaction id (`random.randbytes(12)`).  The header is re-packed with
`message_length = len(software_attr)` before concatenation. -/
def create_binding_request (tid : List Nat) : List Nat :=
  (be16bytes BINDING_REQUEST ++ be16bytes software_attr.length ++
    be32bytes MAGIC_COOKIE ++ pack12s tid) ++ software_attr

/-- The mapping verdict produced by `check_nat_mapping_behavior`'s decision
logic: `indeterminate` for fewer than two successful results, `eim` for the
EIM log branch, the two refined EDM branches, and `edmUnclassified` for the
EDM branch where neither refinement condition fires (unreachable). -/
inductive MappingBehavior
  | indeterminate
  | eim
  | edmAddressAndPort
  | edmAddress
  | edmUnclassified
  deriving DecidableEq

/-- The decision logic of `check_nat_mapping_behavior` (lines 231-258):
input is the list of successful probe results as (external ip, external
port) pairs, in probe order.  `len(set(xs))` is `xs.dedup.length`. -/
def check_nat_mapping_behavior (results : List (Nat × Nat)) : MappingBehavior :=
  if results.length < 2 then MappingBehavior.indeterminate
  else if (results.map Prod.snd).dedup.length = 1 ∧ (results.map Prod.fst).dedup.length = 1
    then MappingBehavior.eim
  else if (results.map Prod.fst).dedup.length = 1 ∧ 1 < (results.map Prod.snd).dedup.length
    then MappingBehavior.edmAddressAndPort
  else if 1 < (results.map Prod.fst).dedup.length then MappingBehavior.edmAddress
  else MappingBehavior.edmUnclassified

/-- `port_diff` from `check_port_allocation` (lines 250-251): successive
differences of external ports in probe order, first element dropped. -/
def port_diff (external_ports : List Nat) : List Int :=
  ((List.range external_ports.length).map fun i =>
    if 0 < i then (external_ports.getD i 0 : Int) - (external_ports.getD (i - 1) 0 : Int)
    else 0).drop 1

/-- `consecutive_count` from `check_port_allocation` (lines 254-257): the
number of indices `i` in `range(1, len)` with `e[i] == e[i-1] + 1`. -/
def consecutive_count (external_ports : List Nat) : Nat :=
  (List.range' 1 (external_ports.length - 1)).countP fun i =>
    decide (external_ports.getD i 0 = external_ports.getD (i - 1) 0 + 1)

/-- `consecutive_percentage` from `check_port_allocation` (line 259). -/
def consecutive_percentage (external_ports : List Nat) : ℚ :=
  if 1 < external_ports.length then
    ((consecutive_count external_ports : ℚ) / ((external_ports.length : ℚ) - 1)) * 100
  else 0

/-- `duplicate_count` from `check_port_allocation` (lines 262-263). -/
def duplicate_count (external_ports : List Nat) : Nat :=
  external_ports.length - external_ports.dedup.length

/-- Python `max` over a list (the analyzer only calls it on non-empty
input, guarded by `if not results: return`; the `[]` case is junk). -/
def listMax : List Nat → Nat
  | [] => 0
  | h :: t => t.foldl Nat.max h

/-- Python `min` over a list (non-empty in the analyzer; `[]` is junk). -/
def listMin : List Nat → Nat
  | [] => 0
  | h :: t => t.foldl Nat.min h

/-- The reported external-port range, `max - min + 1` (line 271). -/
def port_range (external_ports : List Nat) : Nat :=
  listMax external_ports - listMin external_ports + 1

/-- The reported mean successive difference,
`sum(port_diff) / len(port_diff) if port_diff else 0` (line 272). -/
def mean_diff (external_ports : List Nat) : ℚ :=
  if port_diff external_ports = [] then 0
  else ((port_diff external_ports).sum : ℚ) / ((port_diff external_ports).length : ℚ)

/-- Modelled from the spec: "proportion of successive pairs where
`external_port[i] == external_port[i-1] + 1`", counted over the pairs of
adjacent elements. -/
def specConsecutivePairs (l : List Nat) : Nat :=
  (l.zip l.tail).countP fun p => decide (p.2 = p.1 + 1)

/-- Modelled from the spec: the sum over `i` from 1 to `n - 1` of
`external_port[i] - external_port[i-1]`. -/
def specDiffSum (l : List Nat) : Int :=
  ∑ i ∈ Finset.Icc 1 (l.length - 1), ((l.getD i 0 : Int) - (l.getD (i - 1) 0 : Int))

lemma stunHeader_length (mt ml : Nat) (tid : List Nat) (h : tid.length = 12) :
    (stunHeader mt ml tid).length = 20 := by
  simp [stunHeader, be16bytes, be32bytes, h]

lemma parseAttrs_stop (data : List Nat) (pos : Nat) (ip port : Option Nat)
    (h : data.length ≤ pos) : parseAttrs data pos ip port = ParseOutcome.ok ip port := by
  rw [parseAttrs.eq_def, dif_neg (by omega)]

/-- A well-formed response header (type 0x0101, good cookie) hands control
to the attribute loop at offset 20. -/
lemma parse_response_header (mlen : Nat) (tid rest : List Nat) (htid : tid.length = 12) :
    parse_binding_response (stunHeader BINDING_RESPONSE mlen tid ++ rest)
      = parseAttrs (stunHeader BINDING_RESPONSE mlen tid ++ rest) 20 none none := by
  have hlen : (stunHeader BINDING_RESPONSE mlen tid ++ rest).length = 20 + rest.length := by
    simp [List.length_append, stunHeader_length _ _ _ htid]
  have h0 : (stunHeader BINDING_RESPONSE mlen tid ++ rest).getD 0 0 = 1 := rfl
  have h1 : (stunHeader BINDING_RESPONSE mlen tid ++ rest).getD 1 0 = 1 := rfl
  have h4 : (stunHeader BINDING_RESPONSE mlen tid ++ rest).getD 4 0 = 33 := rfl
  have h5 : (stunHeader BINDING_RESPONSE mlen tid ++ rest).getD 5 0 = 18 := rfl
  have h6 : (stunHeader BINDING_RESPONSE mlen tid ++ rest).getD 6 0 = 164 := rfl
  have h7 : (stunHeader BINDING_RESPONSE mlen tid ++ rest).getD 7 0 = 66 := rfl
  unfold parse_binding_response
  rw [if_neg (by omega),
    if_neg (by simp only [h0, h1, be16]; norm_num [BINDING_RESPONSE]),
    if_neg (by simp only [h4, h5, h6, h7, be32]; norm_num [MAGIC_COOKIE])]

/-- One loop iteration over an XOR_MAPPED_ADDRESS attribute block sitting at
`pos`: both result slots are overwritten with the XOR-decoded values and the
scan resumes 12 bytes further. -/
lemma parseAttrs_xor_step (data pre suffix : List Nat) (pos xp xa : Nat)
    (ip port : Option Nat)
    (hdata : data = pre ++ (xorMappedAttr xp xa ++ suffix))
    (hpos : pos = pre.length)
    (hp : xp < 65536) (ha : xa < 4294967296) :
    parseAttrs data pos ip port
      = parseAttrs data (pos + 12) (some (xa ^^^ MAGIC_COOKIE))
          (some (xp ^^^ MAGIC_COOKIE >>> 16)) := by
  subst hdata hpos
  have hlen : (pre ++ (xorMappedAttr xp xa ++ suffix)).length
      = pre.length + 12 + suffix.length := by
    simp [xorMappedAttr, be16bytes, be32bytes, List.length_append]
    omega
  have hget : ∀ j, (pre ++ (xorMappedAttr xp xa ++ suffix)).getD (pre.length + j) 0
      = (xorMappedAttr xp xa ++ suffix).getD j 0 := by
    intro j
    rw [List.getD_append_right _ _ _ _ (by omega)]
    congr 1
    omega
  have g0 : (pre ++ (xorMappedAttr xp xa ++ suffix)).getD pre.length 0 = 0 := hget 0
  have g1 : (pre ++ (xorMappedAttr xp xa ++ suffix)).getD (pre.length + 1) 0 = 32 := hget 1
  have g2 : (pre ++ (xorMappedAttr xp xa ++ suffix)).getD (pre.length + 2) 0 = 0 := hget 2
  have g3 : (pre ++ (xorMappedAttr xp xa ++ suffix)).getD (pre.length + 3) 0 = 8 := hget 3
  have g5 : (pre ++ (xorMappedAttr xp xa ++ suffix)).getD (pre.length + 4 + 1) 0 = 1 := hget 5
  have g6 : (pre ++ (xorMappedAttr xp xa ++ suffix)).getD (pre.length + 4 + 2) 0
      = xp / 256 % 256 := hget 6
  have g7 : (pre ++ (xorMappedAttr xp xa ++ suffix)).getD (pre.length + 4 + 3) 0
      = xp % 256 := hget 7
  have g8 : (pre ++ (xorMappedAttr xp xa ++ suffix)).getD (pre.length + 4 + 4) 0
      = xa / 16777216 % 256 := hget 8
  have g9 : (pre ++ (xorMappedAttr xp xa ++ suffix)).getD (pre.length + 4 + 5) 0
      = xa / 65536 % 256 := hget 9
  have g10 : (pre ++ (xorMappedAttr xp xa ++ suffix)).getD (pre.length + 4 + 6) 0
      = xa / 256 % 256 := hget 10
  have g11 : (pre ++ (xorMappedAttr xp xa ++ suffix)).getD (pre.length + 4 + 7) 0
      = xa % 256 := hget 11
  have hC : pre.length < (pre ++ (xorMappedAttr xp xa ++ suffix)).length := by omega
  have hD : ¬ ((pre ++ (xorMappedAttr xp xa ++ suffix)).length < pre.length + 4) := by omega
  have hA : ¬ ((pre ++ (xorMappedAttr xp xa ++ suffix)).length < pre.length + 4 + 4) := by
    omega
  have hB : ¬ ((pre ++ (xorMappedAttr xp xa ++ suffix)).length < pre.length + 4 + 8) := by
    omega
  have e3 : xp / 256 % 256 * 256 + xp % 256 = xp := by omega
  have e4 : ((xa / 16777216 % 256 * 256 + xa / 65536 % 256) * 256 + xa / 256 % 256) * 256
      + xa % 256 = xa := by omega
  rw [parseAttrs.eq_def, dif_pos hC, if_neg hD]
  simp only [g0, g1, g2, g3, g5, g6, g7, g8, g9, g10, g11]
  norm_num [be16, be32, MAPPED_ADDRESS, XOR_MAPPED_ADDRESS, pad4, e3, e4]
  have hxlen : (xorMappedAttr xp xa).length = 12 := by
    simp [xorMappedAttr, be16bytes, be32bytes]
  rw [hxlen, if_neg (by omega), if_neg (by omega)]

/-- One loop iteration over a MAPPED_ADDRESS attribute block sitting at
`pos`: both result slots are overwritten with the raw (non-XORed) values and
the scan resumes 12 bytes further. -/
lemma parseAttrs_mapped_step (data pre suffix : List Nat) (pos p a : Nat)
    (ip port : Option Nat)
    (hdata : data = pre ++ (mappedAttr p a ++ suffix))
    (hpos : pos = pre.length)
    (hp : p < 65536) (ha : a < 4294967296) :
    parseAttrs data pos ip port
      = parseAttrs data (pos + 12) (some a) (some p) := by
  subst hdata hpos
  have hlen : (pre ++ (mappedAttr p a ++ suffix)).length
      = pre.length + 12 + suffix.length := by
    simp [mappedAttr, be16bytes, be32bytes, List.length_append]
    omega
  have hget : ∀ j, (pre ++ (mappedAttr p a ++ suffix)).getD (pre.length + j) 0
      = (mappedAttr p a ++ suffix).getD j 0 := by
    intro j
    rw [List.getD_append_right _ _ _ _ (by omega)]
    congr 1
    omega
  have g0 : (pre ++ (mappedAttr p a ++ suffix)).getD pre.length 0 = 0 := hget 0
  have g1 : (pre ++ (mappedAttr p a ++ suffix)).getD (pre.length + 1) 0 = 1 := hget 1
  have g2 : (pre ++ (mappedAttr p a ++ suffix)).getD (pre.length + 2) 0 = 0 := hget 2
  have g3 : (pre ++ (mappedAttr p a ++ suffix)).getD (pre.length + 3) 0 = 8 := hget 3
  have g5 : (pre ++ (mappedAttr p a ++ suffix)).getD (pre.length + 4 + 1) 0 = 1 := hget 5
  have g6 : (pre ++ (mappedAttr p a ++ suffix)).getD (pre.length + 4 + 2) 0
      = p / 256 % 256 := hget 6
  have g7 : (pre ++ (mappedAttr p a ++ suffix)).getD (pre.length + 4 + 3) 0
      = p % 256 := hget 7
  have g8 : (pre ++ (mappedAttr p a ++ suffix)).getD (pre.length + 4 + 4) 0
      = a / 16777216 % 256 := hget 8
  have g9 : (pre ++ (mappedAttr p a ++ suffix)).getD (pre.length + 4 + 5) 0
      = a / 65536 % 256 := hget 9
  have g10 : (pre ++ (mappedAttr p a ++ suffix)).getD (pre.length + 4 + 6) 0
      = a / 256 % 256 := hget 10
  have g11 : (pre ++ (mappedAttr p a ++ suffix)).getD (pre.length + 4 + 7) 0
      = a % 256 := hget 11
  have hC : pre.length < (pre ++ (mappedAttr p a ++ suffix)).length := by omega
  have hD : ¬ ((pre ++ (mappedAttr p a ++ suffix)).length < pre.length + 4) := by omega
  have e3 : p / 256 % 256 * 256 + p % 256 = p := by omega
  have e4 : ((a / 16777216 % 256 * 256 + a / 65536 % 256) * 256 + a / 256 % 256) * 256
      + a % 256 = a := by omega
  rw [parseAttrs.eq_def, dif_pos hC, if_neg hD]
  simp only [g0, g1, g2, g3, g5, g6, g7, g8, g9, g10, g11]
  norm_num [be16, be32, MAPPED_ADDRESS, pad4, e3, e4]
  have hmlen : (mappedAttr p a).length = 12 := by
    simp [mappedAttr, be16bytes, be32bytes]
  rw [hmlen, if_neg (by omega), if_neg (by omega)]

/-- Decoding a well-formed binding response holding exactly one
XOR_MAPPED_ADDRESS attribute. -/
lemma parse_single_xor (mlen xport xip : Nat) (tid : List Nat) (htid : tid.length = 12)
    (hp : xport < 65536) (ha : xip < 4294967296) :
    parse_binding_response (stunHeader BINDING_RESPONSE mlen tid ++ xorMappedAttr xport xip)
      = ParseOutcome.ok (some (xip ^^^ MAGIC_COOKIE))
          (some (xport ^^^ MAGIC_COOKIE >>> 16)) := by
  rw [parse_response_header _ _ _ htid]
  rw [parseAttrs_xor_step _ (stunHeader BINDING_RESPONSE mlen tid) [] 20 xport xip
    none none (by simp) (stunHeader_length _ _ _ htid).symm hp ha]
  rw [parseAttrs_stop]
  simp [List.length_append, stunHeader_length _ _ _ htid, xorMappedAttr,
    be16bytes, be32bytes]

/-- C1: a well-formed binding response (length ≥ 20, type 0x0101, magic
cookie 0x2112A442) carrying an XOR_MAPPED_ADDRESS attribute of declared
length 8 with family byte 0x01 decodes to port = raw port field XOR the top
16 bits of the cookie and address = raw address field XOR the full cookie;
in particular the synthetic response whose XORed fields encode 192.0.2.1
port 54321 decodes back to exactly 192.0.2.1:54321. -/
theorem xor_mapped_address_decode
    (mlen xport xip : Nat) (tid : List Nat) (htid : tid.length = 12)
    (hp : xport < 65536) (ha : xip < 4294967296) :
    parse_binding_response (stunHeader BINDING_RESPONSE mlen tid ++ xorMappedAttr xport xip)
      = ParseOutcome.ok (some (xip ^^^ MAGIC_COOKIE)) (some (xport ^^^ 0x2112)) ∧
    parse_binding_response (stunHeader BINDING_RESPONSE 12 (List.replicate 12 0)
        ++ xorMappedAttr (54321 ^^^ 0x2112) (ipv4 192 0 2 1 ^^^ MAGIC_COOKIE))
      = ParseOutcome.ok (some (ipv4 192 0 2 1)) (some 54321) ∧
    ipQuad (ipv4 192 0 2 1) = (192, 0, 2, 1) := by
  have hsh : MAGIC_COOKIE >>> 16 = 0x2112 := by decide
  refine ⟨?_, ?_, by decide⟩
  · rw [parse_single_xor mlen xport xip tid htid hp ha, hsh]
  · rw [parse_single_xor 12 _ _ _ (by simp) (by decide) (by decide)]
    decide

/-- Witness for C1 at concrete inputs. -/
theorem xor_mapped_address_decode_witness :
    (List.replicate 12 (0 : Nat)).length = 12 ∧ (1234 : Nat) < 65536 ∧
    (567890 : Nat) < 4294967296 ∧
    parse_binding_response (stunHeader BINDING_RESPONSE 7 (List.replicate 12 0)
        ++ xorMappedAttr 1234 567890)
      = ParseOutcome.ok (some (567890 ^^^ MAGIC_COOKIE)) (some (1234 ^^^ 0x2112)) :=
  ⟨by simp, by decide, by decide,
    (xor_mapped_address_decode 7 1234 567890 (List.replicate 12 0)
      (by simp) (by decide) (by decide)).1⟩

/-- C2: when a well-formed binding response holds both a MAPPED_ADDRESS and
an XOR_MAPPED_ADDRESS attribute (each declared length 8, IPv4 family), the
decoder's result is the one decoded from whichever attribute occurs later
in the buffer, whatever its type. -/
theorem later_address_attribute_wins
    (mlen p1 a1 p2 a2 : Nat) (tid : List Nat) (htid : tid.length = 12)
    (hp1 : p1 < 65536) (ha1 : a1 < 4294967296)
    (hp2 : p2 < 65536) (ha2 : a2 < 4294967296) :
    parse_binding_response
        (stunHeader BINDING_RESPONSE mlen tid ++ (mappedAttr p1 a1 ++ xorMappedAttr p2 a2))
      = ParseOutcome.ok (some (a2 ^^^ MAGIC_COOKIE)) (some (p2 ^^^ MAGIC_COOKIE >>> 16)) ∧
    parse_binding_response
        (stunHeader BINDING_RESPONSE mlen tid ++ (xorMappedAttr p1 a1 ++ mappedAttr p2 a2))
      = ParseOutcome.ok (some a2) (some p2) := by
  constructor
  · rw [parse_response_header _ _ _ htid]
    rw [parseAttrs_mapped_step _ (stunHeader BINDING_RESPONSE mlen tid)
      (xorMappedAttr p2 a2) 20 p1 a1 none none rfl
      (stunHeader_length _ _ _ htid).symm hp1 ha1]
    rw [parseAttrs_xor_step _
      (stunHeader BINDING_RESPONSE mlen tid ++ mappedAttr p1 a1) [] (20 + 12) p2 a2
      _ _ (by simp) (by simp [List.length_append, stunHeader_length _ _ _ htid,
        mappedAttr, be16bytes, be32bytes]) hp2 ha2]
    rw [parseAttrs_stop]
    simp [List.length_append, stunHeader_length _ _ _ htid, mappedAttr,
      xorMappedAttr, be16bytes, be32bytes]
  · rw [parse_response_header _ _ _ htid]
    rw [parseAttrs_xor_step _ (stunHeader BINDING_RESPONSE mlen tid)
      (mappedAttr p2 a2) 20 p1 a1 none none rfl
      (stunHeader_length _ _ _ htid).symm hp1 ha1]
    rw [parseAttrs_mapped_step _
      (stunHeader BINDING_RESPONSE mlen tid ++ xorMappedAttr p1 a1) [] (20 + 12) p2 a2
      _ _ (by simp) (by simp [List.length_append, stunHeader_length _ _ _ htid,
        xorMappedAttr, be16bytes, be32bytes]) hp2 ha2]
    rw [parseAttrs_stop]
    simp [List.length_append, stunHeader_length _ _ _ htid, mappedAttr,
      xorMappedAttr, be16bytes, be32bytes]

/-- The attribute loop cannot reach the raising branches as long as every
attribute's declared length fits inside the remaining buffer. -/
lemma parseAttrs_ne_raised (data : List Nat) :
    ∀ k pos ip port, data.length - pos ≤ k → attrsFit data pos = true →
      parseAttrs data pos ip port ≠ ParseOutcome.raised := by
  intro k
  induction k with
  | zero =>
    intro pos ip port hk hfit
    rw [parseAttrs_stop _ _ _ _ (by omega)]
    simp
  | succ k ih =>
    intro pos ip port hk hfit
    by_cases hlt : pos < data.length
    · by_cases h4 : data.length < pos + 4
      · rw [parseAttrs.eq_def, dif_pos hlt, if_pos h4]
        simp
      · rw [attrsFit.eq_def, dif_pos hlt, if_neg h4] at hfit
        simp only [Bool.and_eq_true, decide_eq_true_eq] at hfit
        obtain ⟨hfit1, hfit2⟩ := hfit
        rw [parseAttrs.eq_def, dif_pos hlt, if_neg h4]
        split_ifs <;>
          first
            | exact ih _ _ _ (by omega) hfit2
            | exact absurd hfit1 (by omega)
    · rw [parseAttrs.eq_def, dif_neg hlt]
      simp

/-- C10 (amended): the decoder terminates on every input with a result pair
or a decode failure; it never raises provided every attribute's declared
length fits in the remaining buffer (without that proviso it can raise, see
the truncated-attribute counterexample). -/
theorem decode_total_when_attrs_fit (data : List Nat)
    (hfit : attrsFit data 20 = true) :
    parse_binding_response data ≠ ParseOutcome.raised := by
  unfold parse_binding_response
  split_ifs with h1 h2 h3
  · simp
  · simp
  · simp
  · exact parseAttrs_ne_raised data data.length 20 none none (by omega) hfit

/-- Witness for the amended C10 at a concrete buffer. -/
theorem decode_total_when_attrs_fit_witness :
    attrsFit (List.replicate 20 0) 20 = true ∧
    parse_binding_response (List.replicate 20 0) ≠ ParseOutcome.raised := by
  have hfit : attrsFit (List.replicate 20 0) 20 = true := by
    rw [attrsFit.eq_def]
    decide
  exact ⟨hfit, decode_total_when_attrs_fit _ hfit⟩

/-- Counterexample to C10 as stated: on a well-formed header followed by an
XOR_MAPPED_ADDRESS attribute header declaring length 8 with no value bytes,
`parse_binding_response` raises (Python `struct.error`) instead of
returning a result pair or decode failure. -/
theorem decode_raises_on_truncated_attribute :
    parse_binding_response
        (stunHeader BINDING_RESPONSE 4 (List.replicate 12 0) ++ [0, 32, 0, 8])
      = ParseOutcome.raised := by
  rw [parse_response_header 4 (List.replicate 12 0) [0, 32, 0, 8] (by simp),
    parseAttrs.eq_def]
  decide

/-- C8 (amended): a buffer of at least 20 bytes whose message-type field is
0x0101 but whose magic-cookie field (bytes 4-7, big-endian) differs from
0x2112A442 always fails with BadCookie; the message-type condition is needed
because the source checks the type field first. -/
theorem bad_cookie_rejection (data : List Nat) (hlen : 20 ≤ data.length)
    (htype : be16 (data.getD 0 0) (data.getD 1 0) = BINDING_RESPONSE)
    (hcookie : be32 (data.getD 4 0) (data.getD 5 0) (data.getD 6 0) (data.getD 7 0)
      ≠ MAGIC_COOKIE) :
    parse_binding_response data = ParseOutcome.badCookie := by
  unfold parse_binding_response
  rw [if_neg (by omega), if_neg (by simp only [htype]; exact fun hc => hc rfl),
    if_pos hcookie]

/-- Witness for the amended C8 at a concrete buffer. -/
theorem bad_cookie_rejection_witness :
    20 ≤ (([1, 1, 0, 0] ++ List.replicate 16 0 : List Nat)).length ∧
    be16 (([1, 1, 0, 0] ++ List.replicate 16 0 : List Nat).getD 0 0)
      (([1, 1, 0, 0] ++ List.replicate 16 0 : List Nat).getD 1 0) = BINDING_RESPONSE ∧
    be32 (([1, 1, 0, 0] ++ List.replicate 16 0 : List Nat).getD 4 0)
      (([1, 1, 0, 0] ++ List.replicate 16 0 : List Nat).getD 5 0)
      (([1, 1, 0, 0] ++ List.replicate 16 0 : List Nat).getD 6 0)
      (([1, 1, 0, 0] ++ List.replicate 16 0 : List Nat).getD 7 0) ≠ MAGIC_COOKIE ∧
    parse_binding_response ([1, 1, 0, 0] ++ List.replicate 16 0) = ParseOutcome.badCookie :=
  ⟨by decide, by decide, by decide,
    bad_cookie_rejection _ (by decide) (by decide) (by decide)⟩

/-- Counterexample to C8 as stated: a 20-byte all-zero buffer has a magic
cookie field differing from 0x2112A442, yet decoding fails with
UnexpectedType (the type check runs first), not BadCookie. -/
theorem bad_cookie_not_unconditional :
    20 ≤ (List.replicate 20 (0 : Nat)).length ∧
    be32 ((List.replicate 20 (0 : Nat)).getD 4 0) ((List.replicate 20 (0 : Nat)).getD 5 0)
      ((List.replicate 20 (0 : Nat)).getD 6 0) ((List.replicate 20 (0 : Nat)).getD 7 0)
      ≠ MAGIC_COOKIE ∧
    parse_binding_response (List.replicate 20 0) = ParseOutcome.unexpectedType ∧
    parse_binding_response (List.replicate 20 0) ≠ ParseOutcome.badCookie := by
  decide

/-- C5: with fewer than two successful probe results the mapping classifier
returns Indeterminate (it never guesses a behaviour from sparse input). -/
theorem classifier_indeterminate_on_sparse (results : List (Nat × Nat))
    (h : results.length < 2) :
    check_nat_mapping_behavior results = MappingBehavior.indeterminate := by
  unfold check_nat_mapping_behavior
  rw [if_pos h]

/-- Witness for C5: empty and singleton inputs. -/
theorem classifier_indeterminate_on_sparse_witness :
    ([] : List (Nat × Nat)).length < 2 ∧
    check_nat_mapping_behavior [] = MappingBehavior.indeterminate :=
  ⟨by decide, classifier_indeterminate_on_sparse [] (by decide)⟩

/-- C3: with at least two successful probe results the classifier reports
EndpointIndependent exactly when the distinct external IPs and the distinct
external ports each number one; three successes all reporting
(203.0.113.5, 40000) yield EndpointIndependent. -/
theorem classifier_eim_iff (results : List (Nat × Nat)) (h2 : 2 ≤ results.length) :
    (check_nat_mapping_behavior results = MappingBehavior.eim ↔
      ((results.map Prod.fst).dedup.length = 1 ∧ (results.map Prod.snd).dedup.length = 1)) ∧
    check_nat_mapping_behavior (List.replicate 3 (ipv4 203 0 113 5, 40000))
      = MappingBehavior.eim := by
  constructor
  · unfold check_nat_mapping_behavior
    rw [if_neg (by omega)]
    split_ifs with h h' h''
    · simp [h.1, h.2]
    · simp
      omega
    · simp
      omega
    · simp
      omega
  · decide

/-- Witness for C3 at a concrete probe list. -/
theorem classifier_eim_iff_witness :
    2 ≤ ([(9, 40000), (9, 40000)] : List (Nat × Nat)).length ∧
    (check_nat_mapping_behavior [(9, 40000), (9, 40000)] = MappingBehavior.eim ↔
      (([(9, 40000), (9, 40000)] : List (Nat × Nat)).map Prod.fst).dedup.length = 1 ∧
      (([(9, 40000), (9, 40000)] : List (Nat × Nat)).map Prod.snd).dedup.length = 1) :=
  ⟨by decide, (classifier_eim_iff [(9, 40000), (9, 40000)] (by decide)).1⟩

/-- C4: with at least two successful results, when both the distinct IPs and
the distinct ports number more than one the classifier reports the
address-dependent outcome; EndpointDependentAddressAndPort is reported
exactly when distinct IPs = 1 and distinct ports > 1. -/
theorem classifier_tiebreak (results : List (Nat × Nat)) (h2 : 2 ≤ results.length) :
    (1 < (results.map Prod.fst).dedup.length → 1 < (results.map Prod.snd).dedup.length →
      check_nat_mapping_behavior results = MappingBehavior.edmAddress) ∧
    (check_nat_mapping_behavior results = MappingBehavior.edmAddressAndPort ↔
      ((results.map Prod.fst).dedup.length = 1 ∧
        1 < (results.map Prod.snd).dedup.length)) := by
  unfold check_nat_mapping_behavior
  rw [if_neg (by omega)]
  constructor
  · intro hips hports
    rw [if_neg (by omega), if_neg (by omega), if_pos hips]
  · split_ifs with h h' h''
    · simp
      omega
    · simp [h'.1, h'.2]
    · simp
      omega
    · simp
      omega

/-- Witness for C4 at concrete probe lists. -/
theorem classifier_tiebreak_witness :
    2 ≤ ([(1, 10), (2, 20)] : List (Nat × Nat)).length ∧
    check_nat_mapping_behavior [(1, 10), (2, 20)] = MappingBehavior.edmAddress :=
  ⟨by decide,
    (classifier_tiebreak [(1, 10), (2, 20)] (by decide)).1 (by decide) (by decide)⟩

/-- C9: every encoded binding request is 44 bytes long (strictly more than
the 20-byte header and a multiple of 4); the SOFTWARE value is right-padded
with zero bytes to a 4-byte boundary while the declared attribute length
(bytes 22-23) is the unpadded string length 18, and the header's message
length field (bytes 2-3) equals the attribute bytes following the header. -/
theorem binding_request_wire (tid : List Nat) :
    20 < (create_binding_request tid).length ∧
    (create_binding_request tid).length % 4 = 0 ∧
    software.length = 18 ∧
    software_padded = software ++ [0, 0] ∧
    be16 ((create_binding_request tid).getD 20 0) ((create_binding_request tid).getD 21 0)
      = SOFTWARE ∧
    be16 ((create_binding_request tid).getD 22 0) ((create_binding_request tid).getD 23 0)
      = software.length ∧
    be16 ((create_binding_request tid).getD 2 0) ((create_binding_request tid).getD 3 0)
      = (create_binding_request tid).length - 20 := by
  have hpk : (pack12s tid).length = 12 := by
    simp [pack12s, List.length_take]
    omega
  have hpre : (be16bytes BINDING_REQUEST ++ be16bytes software_attr.length ++
      be32bytes MAGIC_COOKIE ++ pack12s tid).length = 20 := by
    simp [be16bytes, be32bytes, List.length_append, hpk]
  have hlen : (create_binding_request tid).length = 44 := by
    unfold create_binding_request
    rw [List.length_append, hpre]
    rfl
  have hgetHi : ∀ j, (create_binding_request tid).getD (20 + j) 0
      = software_attr.getD j 0 := by
    intro j
    unfold create_binding_request
    rw [List.getD_append_right _ _ _ _ (by omega)]
    congr 1
    omega
  have h20 : (create_binding_request tid).getD 20 0 = 128 := hgetHi 0
  have h21 : (create_binding_request tid).getD 21 0 = 34 := hgetHi 1
  have h22 : (create_binding_request tid).getD 22 0 = 0 := hgetHi 2
  have h23 : (create_binding_request tid).getD 23 0 = 18 := hgetHi 3
  have h2 : (create_binding_request tid).getD 2 0 = 0 := rfl
  have h3 : (create_binding_request tid).getD 3 0 = 24 := rfl
  refine ⟨by omega, by omega, rfl, rfl, ?_, ?_, ?_⟩
  · rw [h20, h21]
    decide
  · rw [h22, h23]
    decide
  · rw [h2, h3, hlen]
    decide

/-- Counting a shifted predicate over a shifted `range'`. -/
lemma countP_range'_shift (p q : Nat → Bool) :
    ∀ n s, 1 ≤ s → (∀ i, 1 ≤ i → p (i + 1) = q i) →
      (List.range' (s + 1) n).countP p = (List.range' s n).countP q := by
  intro n
  induction n with
  | zero =>
    intro s hs h
    rfl
  | succ n ih =>
    intro s hs h
    rw [List.range'_succ, List.range'_succ, List.countP_cons, List.countP_cons,
      ih (s + 1) (by omega) h, h s hs]

/-- The index-based consecutive counter of the source equals the pairwise
count named by the spec. -/
lemma consecutive_count_pairs (l : List Nat) :
    consecutive_count l = specConsecutivePairs l := by
  induction l with
  | nil => rfl
  | cons a t ih =>
    cases t with
    | nil => rfl
    | cons b t' =>
      have hshift : (List.range' 2 t'.length).countP
            (fun i => decide ((a :: b :: t').getD i 0 = (a :: b :: t').getD (i - 1) 0 + 1))
          = (List.range' 1 t'.length).countP
            (fun i => decide ((b :: t').getD i 0 = (b :: t').getD (i - 1) 0 + 1)) := by
        apply countP_range'_shift _ _ t'.length 1 le_rfl
        intro i hi
        obtain ⟨j, rfl⟩ : ∃ j, i = j + 1 := ⟨i - 1, by omega⟩
        simp [List.getD_cons_succ]
      have hl : consecutive_count (a :: b :: t')
          = (List.range' 1 (t'.length + 1)).countP
            (fun i => decide ((a :: b :: t').getD i 0 = (a :: b :: t').getD (i - 1) 0 + 1)) := by
        unfold consecutive_count
        congr 1
      have hr : consecutive_count (b :: t')
          = (List.range' 1 t'.length).countP
            (fun i => decide ((b :: t').getD i 0 = (b :: t').getD (i - 1) 0 + 1)) := by
        unfold consecutive_count
        congr 1
      rw [hl, List.range'_succ, List.countP_cons, hshift, ← hr, ih]
      unfold specConsecutivePairs
      rw [show (a :: b :: t').tail = b :: t' from rfl, List.zip_cons_cons, List.countP_cons]
      rfl

/-- `port_diff` is the list of successive differences indexed from 1. -/
lemma port_diff_eq (l : List Nat) :
    port_diff l = (List.range' 1 (l.length - 1)).map
      (fun i => (l.getD i 0 : Int) - (l.getD (i - 1) 0 : Int)) := by
  cases l with
  | nil => rfl
  | cons a t =>
    unfold port_diff
    rw [show (a :: t).length = t.length + 1 from by simp, List.range_eq_range',
      List.range'_succ, List.map_cons, List.drop_succ_cons, List.drop_zero]
    simp only [Nat.add_sub_cancel, Nat.zero_add]
    apply List.map_congr_left
    intro i hi
    rw [if_pos]
    have := List.mem_range'_1.mp hi
    omega

/-- Length of `port_diff`. -/
lemma port_diff_length (l : List Nat) : (port_diff l).length = l.length - 1 := by
  rw [port_diff_eq]
  simp

/-- Sum of a mapped `range'` as a `Finset.range` sum. -/
lemma range'_map_sum (f : Nat → Int) :
    ∀ n s, ((List.range' s n).map f).sum = ∑ i ∈ Finset.range n, f (s + i) := by
  intro n
  induction n with
  | zero =>
    intro s
    simp
  | succ n ih =>
    intro s
    rw [List.range'_succ, List.map_cons, List.sum_cons, ih (s + 1),
      Finset.sum_range_succ']
    have h1 : ∀ i ∈ Finset.range n, f (s + 1 + i) = f (s + (i + 1)) := fun i _ => by
      congr 1
      omega
    rw [Finset.sum_congr rfl h1, show s + 0 = s from rfl]
    omega

/-- The sum of `port_diff` equals the spec's difference sum. -/
lemma port_diff_sum (l : List Nat) : (port_diff l).sum = specDiffSum l := by
  rw [port_diff_eq, range'_map_sum]
  unfold specDiffSum
  rw [← Nat.Ico_succ_right, Finset.sum_Ico_eq_sum_range]
  simp

/-- C6: for a non-empty probe-ordered list of successful external ports the
analyzer's consecutive proportion is (number of indices with
`e[i] = e[i-1] + 1`) over `count - 1` (0 when fewer than 2), its duplicate
count is `count` minus the number of distinct ports, and its range is
`max - min + 1`; for ports [5000, 5001, 5002, 5004] this gives proportion
2/3 (reported as a percentage), duplicate count 0, range 5. -/
theorem allocation_stats (l : List Nat) (_hne : l ≠ []) :
    consecutive_percentage l =
      (if 1 < l.length then ((specConsecutivePairs l : ℚ) / ((l.length : ℚ) - 1)) * 100
        else 0) ∧
    duplicate_count l = l.length - l.dedup.length ∧
    port_range l = listMax l - listMin l + 1 ∧
    consecutive_percentage [5000, 5001, 5002, 5004] = (2 / 3 : ℚ) * 100 ∧
    duplicate_count [5000, 5001, 5002, 5004] = 0 ∧
    port_range [5000, 5001, 5002, 5004] = 5 := by
  refine ⟨?_, rfl, rfl, ?_, by decide, by decide⟩
  · unfold consecutive_percentage
    rw [consecutive_count_pairs]
  · have hc : consecutive_count [5000, 5001, 5002, 5004] = 2 := by decide
    unfold consecutive_percentage
    rw [if_pos (by decide), hc]
    norm_num

/-- Witness for C6 at the spec's sample port list. -/
theorem allocation_stats_witness :
    ([5000, 5001, 5002, 5004] : List Nat) ≠ [] ∧
    duplicate_count [5000, 5001, 5002, 5004]
      = ([5000, 5001, 5002, 5004] : List Nat).length
        - ([5000, 5001, 5002, 5004] : List Nat).dedup.length :=
  ⟨by decide, (allocation_stats [5000, 5001, 5002, 5004] (by decide)).2.1⟩

/-- C7: with at least two successes the analyzer's mean successive
difference is the sum of `e[i] - e[i-1]` for `i` from 1 to `n - 1` divided
by `n - 1`; with fewer than two successes it reports 0. -/
theorem mean_successive_difference (l : List Nat) :
    (2 ≤ l.length → mean_diff l = (specDiffSum l : ℚ) / ((l.length : ℚ) - 1)) ∧
    (l.length < 2 → mean_diff l = 0) := by
  constructor
  · intro h2
    have hlen : (port_diff l).length = l.length - 1 := port_diff_length l
    have hne : port_diff l ≠ [] := by
      intro hcon
      rw [hcon] at hlen
      simp at hlen
      omega
    unfold mean_diff
    rw [if_neg hne, port_diff_sum, hlen]
    congr 1
    rw [Nat.cast_sub (by omega)]
    norm_num
  · intro h2
    have hnil : port_diff l = [] := by
      have hlen := port_diff_length l
      exact List.length_eq_zero.mp (by omega)
    unfold mean_diff
    rw [if_pos hnil]

/-- Witness for C7 at a concrete port list. -/
theorem mean_successive_difference_witness :
    2 ≤ ([5000, 5010] : List Nat).length ∧
    mean_diff [5000, 5010]
      = (specDiffSum [5000, 5010] : ℚ) / ((([5000, 5010] : List Nat).length : ℚ) - 1) :=
  ⟨by decide, (mean_successive_difference [5000, 5010]).1 (by decide)⟩

/-- Witness for C2 at concrete inputs. -/
theorem later_address_attribute_wins_witness :
    (List.replicate 12 (3 : Nat)).length = 12 ∧
    parse_binding_response
        (stunHeader BINDING_RESPONSE 0 (List.replicate 12 3)
          ++ (mappedAttr 1111 99 ++ xorMappedAttr 2222 77))
      = ParseOutcome.ok (some (77 ^^^ MAGIC_COOKIE)) (some (2222 ^^^ MAGIC_COOKIE >>> 16)) :=
  ⟨by simp,
    (later_address_attribute_wins 0 1111 99 2222 77 (List.replicate 12 3)
      (by simp) (by decide) (by decide) (by decide) (by decide)).1⟩

end NatInspect
